import Mathlib

/-!
Shallow embedding of the CIX evaluation app (`app.py`) for verification.

The spreadsheet read by pandas (`read_csv` / `read_excel` with `header=None`)
is modelled as a list of rows, each row a list of cells; a cell is
`Option String` where `none` stands for a missing value (pandas `NaN`).
`Sheet.ncols` is the column count of the rectangular frame (pandas pads
short rows with `NaN`, so the frame's width is the maximal row length and
cells past a row's own length read as `NaN`).  Numeric scores (`0`, `0.4`,
`0.8`, `1` and their mean) are modelled as exact rationals.

Python string methods (`lower`, `strip`, `endswith`, `split`, `replace`) are
embedded as structurally recursive functions over the character list, so
that every definition evaluates on concrete inputs inside the kernel.
-/

namespace OAC

/-- Python `str.lower()` on the ASCII range (the only case arising here:
file suffixes and the cell mark `x`). -/
def pyLower (s : String) : String := String.mk (s.data.map Char.toLower)

/-- Python `str.strip()`: drop whitespace from both ends. -/
def pyStrip (s : String) : String :=
  String.mk (((s.data.dropWhile Char.isWhitespace).reverse.dropWhile
    Char.isWhitespace).reverse)

/-- Python `str.endswith(suffix)`. -/
def pyEndsWith (s suffix : String) : Bool :=
  suffix.data.isSuffixOf s.data

/-- Python `s.split(sep)[0]` for a one-character separator: the chunk before
the first occurrence of `sep` (the whole string when `sep` is absent). -/
def pySplitHead (sep : Char) (s : String) : String :=
  String.mk (s.data.takeWhile (fun c => !(c == sep)))

/-- One fuelled step list for Python `str.replace`: rewrite every
non-overlapping occurrence of `pat` (nonempty in all uses here) by `repl`,
scanning left to right. -/
def replaceFuel (pat repl : List Char) : Nat → List Char → List Char
  | 0, l => l
  | _, [] => []
  | fuel + 1, c :: cs =>
    if pat.isPrefixOf (c :: cs) && !pat.isEmpty then
      repl ++ replaceFuel pat repl fuel ((c :: cs).drop pat.length)
    else c :: replaceFuel pat repl fuel cs

/-- Python `s.replace(pat, repl)` (for the nonempty patterns used in
`app.py`: `".xlsx"`, `".csv"`, `" "`, `"-"`). -/
def pyReplace (s pat repl : String) : String :=
  String.mk (replaceFuel pat.data repl.data s.data.length s.data)

/-- A raw tabular sheet as produced by `pd.read_csv` / `pd.read_excel` with
`header=None`: rows of cells, a cell being `none` when pandas reads `NaN`. -/
structure Sheet where
  data : List (List (Option String))
deriving DecidableEq

/-- Width of the rectangular frame: the maximal row length. -/
def maxCols : List (List (Option String)) → Nat
  | [] => 0
  | r :: rs => max r.length (maxCols rs)

/-- `df_raw.shape[0]`. -/
def Sheet.nrows (s : Sheet) : Nat := s.data.length

/-- `df_raw.shape[1]`. -/
def Sheet.ncols (s : Sheet) : Nat := maxCols s.data

/-- The value at row `i`, column `j` of the padded rectangular frame:
`none` (pandas `NaN`) beyond the stored cells.  This is the value
`df_raw.iloc[i, j]` yields when `i`, `j` are in bounds. -/
def Sheet.colCell (s : Sheet) (i j : Nat) : Option String :=
  (s.data.getD i []).getD j none

/-- `COLUMNAS_CALIFICACION` from `app.py`: rating keys with their weights. -/
def COLUMNAS_CALIFICACION : List (String × ℚ) :=
  [("N", 0), ("P", 0.4), ("T", 0.8), ("E", 1)]

/-- `INDICADORES_A_EVALUAR` from `app.py`: the 10 fixed indicator names. -/
def INDICADORES_A_EVALUAR : List String :=
  ["Datos de actividad",
   "Factores de emisión",
   "Alcance 1",
   "Alcance 2",
   "Alcance 3",
   "Categorías excluidas",
   "Consolidación",
   "Auditoría",
   "Compromisos de reducción",
   "Evaluación de incertidumbre"]

/-- `str(cell)` as applied to a pandas cell: `NaN` prints as `"nan"`. -/
def cellStr : Option String → String
  | some s => s
  | none => "nan"

/-- Whether `str(cell).strip().lower() == 'x'`. -/
def isX (c : Option String) : Bool := pyLower (pyStrip (cellStr c)) == "x"

/-- `calificacion_col_indices = [4, 5, 6, 7]` from the rating loop. -/
def calificacion_col_indices : List Nat := [4, 5, 6, 7]

/-- `COLUMNAS_CALIFICACION[key]` (the dict lookup in the rating loop). -/
def califValor (key : String) : ℚ :=
  ((COLUMNAS_CALIFICACION.find? (fun p => p.1 == key)).map Prod.snd).getD 0

/-- The rating loop of `app.py` (lines 84-92): walk
`zip(calificacion_col_indices, COLUMNAS_CALIFICACION.keys())` in order,
keeping the first in-bounds column whose cell reads `'x'` (after
`str`, `strip`, `lower`); default `0` when none matches. -/
def puntuacionFila (df : Sheet) (fila_idx : Nat) : ℚ :=
  match (List.zip calificacion_col_indices (COLUMNAS_CALIFICACION.map Prod.fst)).find?
      (fun p => decide (p.1 < df.ncols) && isX (df.colCell fila_idx p.1)) with
  | some p => califValor p.2
  | none => 0

/-- Whether a row matches the indicator-name search
`(df_raw.iloc[:, 0] == nombre) | (df_raw.iloc[:, 1] == nombre)`. -/
def matchesRow (name : String) (r : List (Option String)) : Bool :=
  (r.getD 0 none == some name) || (r.getD 1 none == some name)

/-- Index-carrying search for the first matching row. -/
def buscarAux (name : String) : List (List (Option String)) → Nat → Option Nat
  | [], _ => none
  | r :: rs, i => if matchesRow name r then some i else buscarAux name rs (i + 1)

/-- `fila_indicador[0]` when the filtered index is nonempty (lines 79-82 of
`app.py`): the least row index whose column 0 or column 1 equals the
indicator name, `none` when no row matches. -/
def buscarFila (df : Sheet) (name : String) : Option Nat :=
  buscarAux name df.data 0

/-- The per-indicator body of the extraction loop (lines 79-96): score of the
first matching row, `0` when the indicator is absent from columns 0 and 1. -/
def puntuacion_de (df : Sheet) (nombre : String) : ℚ :=
  match buscarFila df nombre with
  | some idx => puntuacionFila df idx
  | none => 0

/-- `puntuaciones_indicadores` after the extraction loop: one entry per name
of `INDICADORES_A_EVALUAR`, in order. -/
def puntuaciones_indicadores (df : Sheet) : List (String × ℚ) :=
  INDICADORES_A_EVALUAR.map (fun n => (n, puntuacion_de df n))

/-- `key.lower().replace(" ", "_").replace("-", "_")` (line 114). -/
def snakeCase (k : String) : String :=
  pyReplace (pyReplace (pyLower k) " " "_") "-" "_"

/-- The fallback organisation name
`file_name.split('-')[0].replace(".xlsx", "").replace(".csv", "")`
(line 70 of `app.py`). -/
def fallback_org (file_name : String) : String :=
  pyReplace (pyReplace (pySplitHead '-' file_name) ".xlsx" "") ".csv" ""

/-- The `db_data` dictionary returned by `procesar_evaluacion_empresa`:
three metadata strings, the total, and the ten snake-cased indicator
entries in loop order. -/
structure DbData where
  organizacion_nombre : String
  periodo_informe : String
  enlace_original_documentacion : String
  cix_total : ℚ
  indicadores : List (String × ℚ)
deriving DecidableEq

/-- The pandas message of an out-of-bounds `.iloc` access. -/
def iloc_oob_msg : String := "IndexError: single positional indexer is out-of-bounds"

/-- The happy path of `procesar_evaluacion_empresa` once the file has been
read into `df` and all `.iloc` accesses are in bounds (lines 70-116). -/
def extraerOk (df : Sheet) (file_name : String) : DbData :=
  let nombre_organizacion := match df.colCell 5 1 with
    | some s => s
    | none => fallback_org file_name
  let periodo_informe := (df.colCell 6 1).getD "Desconocido"
  let enlace_documentacion := (df.colCell 7 1).getD "N/A"
  let punt := puntuaciones_indicadores df
  let cix_total := if punt.isEmpty then 0
    else (punt.map Prod.snd).sum / (INDICADORES_A_EVALUAR.length : ℚ)
  { organizacion_nombre := nombre_organizacion
    periodo_informe := periodo_informe
    enlace_original_documentacion := enlace_documentacion
    cix_total := cix_total
    indicadores := punt.map (fun p => (snakeCase p.1, p.2)) }

/-- The extraction stage of `procesar_evaluacion_empresa` on a read
sheet.  The metadata reads `df_raw.iloc[5, 1]`, `iloc[6, 1]`, `iloc[7, 1]`
raise `IndexError` (caught by the enclosing `try`) unless the frame has at
least 8 rows and at least 2 columns; past them, the indicator search only
needs 2 columns and the rating loop is bounds-guarded, so no further
access can fail. -/
def extraer (df : Sheet) (file_name : String) : Except String DbData :=
  if 7 < df.nrows ∧ 1 < df.ncols then Except.ok (extraerOk df file_name)
  else Except.error iloc_oob_msg

/-- Result of `procesar_evaluacion_empresa`: a complete record, or one of the
two `None`-returning failure paths, distinguished by the message emitted
(line 63 for the unsupported suffix, line 119 for the caught exception,
which carries the file name and the underlying cause). -/
inductive ProcResult where
  | record (d : DbData)
  | unsupportedFormat
  | malformedInput (file_name : String) (cause : String)
deriving DecidableEq

/-- `procesar_evaluacion_empresa` (lines 50-120).  The pandas readers are
passed in as functions from the raw bytes to a sheet or a reading error;
dispatch on the lower-cased file-name suffix picks the reader, any reading
or extraction error becomes the caught-exception path, and every other
input produces the complete record. -/
def procesar_evaluacion_empresa
    (read_csv read_excel : List Nat → Except String Sheet)
    (file_bytes_obj : List Nat) (file_name : String) : ProcResult :=
  if pyEndsWith (pyLower file_name) ".csv" then
    match read_csv file_bytes_obj with
    | Except.ok df =>
      match extraer df file_name with
      | Except.ok d => ProcResult.record d
      | Except.error e => ProcResult.malformedInput file_name e
    | Except.error e => ProcResult.malformedInput file_name e
  else if pyEndsWith (pyLower file_name) ".xlsx" then
    match read_excel file_bytes_obj with
    | Except.ok df =>
      match extraer df file_name with
      | Except.ok d => ProcResult.record d
      | Except.error e => ProcResult.malformedInput file_name e
    | Except.error e => ProcResult.malformedInput file_name e
  else ProcResult.unsupportedFormat

end OAC

namespace OAC

/-! ## Basic lemmas about the sheet model -/

theorem getD_len_le (rs : List (List (Option String))) (i : Nat) :
    (rs.getD i []).length ≤ maxCols rs := by
  induction rs generalizing i with
  | nil => simp [maxCols]
  | cons r rs ih =>
    cases i with
    | zero => simp [maxCols]
    | succ n =>
      have := ih n
      simp only [List.getD_cons_succ, maxCols]
      exact le_trans this (le_max_right _ _)

theorem colCell_eq_none (s : Sheet) (i j : Nat) (h : s.ncols ≤ j) :
    s.colCell i j = none := by
  unfold Sheet.colCell
  exact List.getD_eq_default _ _ (le_trans (getD_len_le s.data i) h)

theorem isX_none : isX none = false := by rfl

theorem guard_isX (df : Sheet) (fila j : Nat) :
    (decide (j < df.ncols) && isX (df.colCell fila j)) = isX (df.colCell fila j) := by
  by_cases h : j < df.ncols
  · simp [h]
  · rw [colCell_eq_none df fila j (le_of_not_lt h), isX_none]
    simp

/-! ## The rating-loop as the spec describes it -/

/-- The spec's description of indicator-value resolution: inspect the fixed
columns 4, 5, 6, 7 left to right and let the first cell whose trimmed,
case-folded content equals `x` choose the weight 0, 0.4, 0.8, 1; when none
match the score is 0. -/
def score_por_columnas (df : Sheet) (fila : Nat) : ℚ :=
  if isX (df.colCell fila 4) then 0
  else if isX (df.colCell fila 5) then 0.4
  else if isX (df.colCell fila 6) then 0.8
  else if isX (df.colCell fila 7) then 1
  else 0

/-- Claim C2: for every row inspected by the rating loop, the score is
resolved by checking columns 4, 5, 6, 7 in that order; the first cell whose
stripped, lower-cased content equals `x` gives 0, 0.4, 0.8 or 1
respectively, and when none of the four cells matches the score is 0. -/
theorem c2_primera_x_gana (df : Sheet) (fila : Nat) :
    puntuacionFila df fila = score_por_columnas df fila := by
  unfold puntuacionFila score_por_columnas
  rw [show List.zip calificacion_col_indices (COLUMNAS_CALIFICACION.map Prod.fst)
      = [(4, "N"), (5, "P"), (6, "T"), (7, "E")] from rfl]
  simp only [List.find?, guard_isX]
  cases h4 : isX (df.colCell fila 4) <;>
    cases h5 : isX (df.colCell fila 5) <;>
      cases h6 : isX (df.colCell fila 6) <;>
        cases h7 : isX (df.colCell fila 7) <;>
          simp [h4, h5, h6, h7,
            show califValor "N" = 0 from rfl,
            show califValor "P" = 0.4 from rfl,
            show califValor "T" = 0.8 from rfl,
            show califValor "E" = 1 from rfl]

/-! ## The row search -/

theorem buscarAux_none_iff (name : String) (rs : List (List (Option String))) (i : Nat) :
    buscarAux name rs i = none ↔ ∀ r ∈ rs, matchesRow name r = false := by
  induction rs generalizing i with
  | nil => simp [buscarAux]
  | cons r rs ih =>
    cases hm : matchesRow name r with
    | true => simp [buscarAux, hm]
    | false => simp [buscarAux, hm, ih (i + 1)]

theorem buscarAux_some (name : String) (rs : List (List (Option String))) :
    ∀ i idx : Nat, buscarAux name rs i = some idx →
      i ≤ idx ∧ matchesRow name (rs.getD (idx - i) []) = true ∧
        ∀ k, k < idx - i → matchesRow name (rs.getD k []) = false := by
  induction rs with
  | nil => intro i idx h; simp [buscarAux] at h
  | cons r rs ih =>
    intro i idx h
    cases hm : matchesRow name r with
    | true =>
      simp only [buscarAux, hm, if_true, Option.some.injEq] at h
      subst h
      refine ⟨le_refl i, ?_, ?_⟩
      · simp [hm]
      · intro k hk; omega
    | false =>
      simp only [buscarAux, hm, Bool.false_eq_true, if_false] at h
      obtain ⟨hle, hmatch, hbefore⟩ := ih (i + 1) idx h
      refine ⟨by omega, ?_, ?_⟩
      · have hsub : idx - i = (idx - (i + 1)) + 1 := by omega
        rw [hsub, List.getD_cons_succ]
        exact hmatch
      · intro k hk
        cases k with
        | zero => simpa using hm
        | succ m =>
          rw [List.getD_cons_succ]
          exact hbefore m (by omega)

theorem mem_eq_getD (rs : List (List (Option String))) (r : List (Option String))
    (hr : r ∈ rs) : ∃ k, rs.getD k [] = r := by
  induction rs with
  | nil => cases hr
  | cons a as ih =>
    rcases List.mem_cons.mp hr with h | h
    · exact ⟨0, by simp [h]⟩
    · obtain ⟨k, hk⟩ := ih h
      exact ⟨k + 1, by simpa using hk⟩

theorem buscarFila_eq_none (df : Sheet) (nombre : String)
    (h : ∀ k, df.colCell k 0 ≠ some nombre ∧ df.colCell k 1 ≠ some nombre) :
    buscarFila df nombre = none := by
  rw [buscarFila, buscarAux_none_iff]
  intro r hr
  obtain ⟨k, hk⟩ := mem_eq_getD df.data r hr
  have h0 := (h k).1
  have h1 := (h k).2
  rw [Sheet.colCell, hk] at h0 h1
  simp only [matchesRow, List.getD, List.get?_eq_getElem?] at h0 h1 ⊢
  simp [h0, h1]

/-- Claim C10: when an indicator name occurs in column 0 or 1 of more than
one row, only the row with the smallest index among the matches is used:
that row matches, every earlier row does not, and the indicator's score is
computed from that row alone. -/
theorem c10_menor_fila_gana (df : Sheet) (nombre : String) (idx : Nat)
    (h : buscarFila df nombre = some idx) :
    (df.colCell idx 0 = some nombre ∨ df.colCell idx 1 = some nombre) ∧
    (∀ k, k < idx → df.colCell k 0 ≠ some nombre ∧ df.colCell k 1 ≠ some nombre) ∧
    puntuacion_de df nombre = puntuacionFila df idx := by
  obtain ⟨-, hmatch, hbefore⟩ := buscarAux_some nombre df.data 0 idx h
  rw [Nat.sub_zero] at hmatch
  refine ⟨?_, ?_, ?_⟩
  · simpa [matchesRow, Sheet.colCell] using hmatch
  · intro k hk
    have hb := hbefore k (by omega)
    simpa [matchesRow, Sheet.colCell] using hb
  · rw [puntuacion_de, h]

/-- Sheet with the indicator `Alcance 1` in two rows (8 and 9) carrying
different marks: the rating of row 8 (`x` in column 6, weight 0.8) wins and
row 9's mark in column 4 is ignored. -/
def hoja_duplicada : Sheet := ⟨[[none, none], [none, none], [none, none], [none, none],
  [none, none], [none, none], [none, none], [none, none],
  [some "Alcance 1", none, none, none, none, none, some "x", none],
  [some "Alcance 1", none, none, none, some "x", none, none, none]]⟩

/-- Witness for C10 at a concrete sheet with a duplicated indicator row. -/
theorem c10_menor_fila_gana_witness :
    buscarFila hoja_duplicada "Alcance 1" = some 8 ∧
    puntuacion_de hoja_duplicada "Alcance 1" = puntuacionFila hoja_duplicada 8 ∧
    puntuacion_de hoja_duplicada "Alcance 1" = 0.8 :=
  ⟨rfl, (c10_menor_fila_gana hoja_duplicada "Alcance 1" 8 rfl).2.2, rfl⟩

end OAC

namespace OAC

/-! ## The extraction stage -/

theorem extraer_eq_ok_iff (df : Sheet) (n : String) (d : DbData) :
    extraer df n = Except.ok d ↔ (7 < df.nrows ∧ 1 < df.ncols) ∧ d = extraerOk df n := by
  unfold extraer
  by_cases h : 7 < df.nrows ∧ 1 < df.ncols
  · rw [if_pos h]
    constructor
    · intro he
      injection he with h'
      exact ⟨h, h'.symm⟩
    · rintro ⟨-, rfl⟩
      rfl
  · rw [if_neg h]
    constructor
    · intro he
      cases he
    · rintro ⟨hh, -⟩
      exact absurd hh h

theorem extraerOk_indicadores (df : Sheet) (n : String) :
    (extraerOk df n).indicadores
      = INDICADORES_A_EVALUAR.map (fun m => (snakeCase m, puntuacion_de df m)) := by
  simp [extraerOk, puntuaciones_indicadores, List.map_map]

theorem extraerOk_ind_snd (df : Sheet) (n : String) :
    (extraerOk df n).indicadores.map Prod.snd
      = (puntuaciones_indicadores df).map Prod.snd := by
  rw [extraerOk_indicadores, puntuaciones_indicadores, List.map_map, List.map_map]
  rfl

theorem extraerOk_cix (df : Sheet) (n : String) :
    (extraerOk df n).cix_total = ((puntuaciones_indicadores df).map Prod.snd).sum / 10 := by
  have hne : (puntuaciones_indicadores df).isEmpty = false := by
    simp [puntuaciones_indicadores, INDICADORES_A_EVALUAR]
  have hlen : (INDICADORES_A_EVALUAR.length : ℚ) = 10 := by
    norm_num [INDICADORES_A_EVALUAR]
  simp [extraerOk, hne, hlen]

theorem procesar_record_extraer (rc rx : List Nat → Except String Sheet)
    (b : List Nat) (n : String) (d : DbData)
    (h : procesar_evaluacion_empresa rc rx b n = ProcResult.record d) :
    ∃ df, extraer df n = Except.ok d := by
  by_cases hcsv : pyEndsWith (pyLower n) ".csv" = true
  · cases hr : rc b with
    | ok df =>
      cases he : extraer df n with
      | ok d' =>
        simp only [procesar_evaluacion_empresa, hcsv, if_true, hr, he,
          ProcResult.record.injEq] at h
        subst h
        exact ⟨df, he⟩
      | error e =>
        simp [procesar_evaluacion_empresa, hcsv, hr, he] at h
    | error e =>
      simp [procesar_evaluacion_empresa, hcsv, hr] at h
  · by_cases hx : pyEndsWith (pyLower n) ".xlsx" = true
    · cases hr : rx b with
      | ok df =>
        cases he : extraer df n with
        | ok d' =>
          simp [procesar_evaluacion_empresa, hcsv, hx, hr, he] at h
          subst h
          exact ⟨df, he⟩
        | error e =>
          simp [procesar_evaluacion_empresa, hcsv, hx, hr, he] at h
      | error e =>
        simp [procesar_evaluacion_empresa, hcsv, hx, hr] at h
    · simp [procesar_evaluacion_empresa, hcsv, hx] at h

/-- Claim C1: every record produced by `procesar_evaluacion_empresa` has
`cix_total` equal to the sum of its 10 indicator scores divided by exactly
10 (the fixed indicator count), whether or not the indicators were found in
the sheet (a missing indicator contributes `0` to the sum and still counts
in the divisor). -/
theorem c1_cix_total_promedio_fijo (rc rx : List Nat → Except String Sheet)
    (b : List Nat) (n : String) (d : DbData)
    (h : procesar_evaluacion_empresa rc rx b n = ProcResult.record d) :
    d.cix_total = ((d.indicadores.map Prod.snd).sum) / 10 ∧ d.indicadores.length = 10 := by
  obtain ⟨df, hdf⟩ := procesar_record_extraer rc rx b n d h
  obtain ⟨-, rfl⟩ := (extraer_eq_ok_iff df n d).mp hdf
  refine ⟨?_, ?_⟩
  · rw [extraerOk_cix, extraerOk_ind_snd]
  · rw [extraerOk_indicadores]
    simp [INDICADORES_A_EVALUAR]

/-- An all-blank sheet of 8 rows and 2 columns: every metadata cell is
`NaN` and no indicator is found. -/
def hoja_en_blanco : Sheet := ⟨[[none, none], [none, none], [none, none], [none, none],
  [none, none], [none, none], [none, none], [none, none]]⟩

/-- Witness for C1: on a concrete blank sheet, the record is produced and
its total is the sum of its indicator entries divided by 10. -/
theorem c1_cix_total_promedio_fijo_witness :
    (extraerOk hoja_en_blanco "a.csv").cix_total
      = (((extraerOk hoja_en_blanco "a.csv").indicadores.map Prod.snd).sum) / 10 ∧
    (extraerOk hoja_en_blanco "a.csv").indicadores.length = 10 :=
  c1_cix_total_promedio_fijo (fun _ => Except.ok hoja_en_blanco)
    (fun _ => Except.ok hoja_en_blanco) [] "a.csv" (extraerOk hoja_en_blanco "a.csv") rfl

end OAC

namespace OAC

/-- Claim C3: for every sheet large enough to pass the metadata reads, a
record is produced whose indicator entries are exactly the 10 fixed
indicator names (snake-cased, in order), and any indicator name appearing
nowhere in columns 0 and 1 gets score 0 without any error being raised. -/
theorem c3_diez_entradas (df : Sheet) (name : String)
    (hr : 7 < df.nrows) (hc : 1 < df.ncols) :
    extraer df name = Except.ok (extraerOk df name) ∧
    (extraerOk df name).indicadores.map Prod.fst = INDICADORES_A_EVALUAR.map snakeCase ∧
    (extraerOk df name).indicadores.length = 10 ∧
    ∀ n', n' ∈ INDICADORES_A_EVALUAR →
      (∀ k, df.colCell k 0 ≠ some n' ∧ df.colCell k 1 ≠ some n') →
      (snakeCase n', 0) ∈ (extraerOk df name).indicadores := by
  refine ⟨(extraer_eq_ok_iff df name _).mpr ⟨⟨hr, hc⟩, rfl⟩, ?_, ?_, ?_⟩
  · rw [extraerOk_indicadores, List.map_map]
    rfl
  · rw [extraerOk_indicadores]
    simp [INDICADORES_A_EVALUAR]
  · intro n' hn' habs
    have h0 : buscarFila df n' = none := buscarFila_eq_none df n' habs
    have hz : puntuacion_de df n' = 0 := by rw [puntuacion_de, h0]
    rw [extraerOk_indicadores]
    exact List.mem_map.mpr ⟨n', hn', by simp [hz]⟩

/-- Witness for C3: on the concrete blank sheet (no indicator present
anywhere) the record exists and still carries 10 indicator entries. -/
theorem c3_diez_entradas_witness :
    extraer hoja_en_blanco "sin_indicadores.csv"
      = Except.ok (extraerOk hoja_en_blanco "sin_indicadores.csv") ∧
    (extraerOk hoja_en_blanco "sin_indicadores.csv").indicadores.length = 10 :=
  ⟨(c3_diez_entradas hoja_en_blanco "sin_indicadores.csv" (by decide) (by decide)).1,
   (c3_diez_entradas hoja_en_blanco "sin_indicadores.csv" (by decide) (by decide)).2.2.1⟩

/-- Claim C4 (amended): extraction succeeds exactly when the sheet has at
least 8 rows and at least 2 columns (the metadata reads at (5,1), (6,1),
(7,1) and the search over column 1 are not bounds-guarded: on a smaller
sheet the caught `IndexError` aborts extraction with no record); only the
rating columns are treated as absent when beyond the sheet's width: a
column index at or past `ncols` never matches an `x`. -/
theorem c4_limites (df : Sheet) (name : String) :
    ((∃ d, extraer df name = Except.ok d) ↔ (7 < df.nrows ∧ 1 < df.ncols)) ∧
    (∀ fila j, df.ncols ≤ j → isX (df.colCell fila j) = false) := by
  constructor
  · constructor
    · rintro ⟨d, hd⟩
      exact ((extraer_eq_ok_iff df name d).mp hd).1
    · intro h
      exact ⟨extraerOk df name, (extraer_eq_ok_iff df name _).mpr ⟨h, rfl⟩⟩
  · intro fila j hj
    rw [colCell_eq_none df fila j hj, isX_none]

/-- A 1-by-1 sheet: every metadata coordinate is out of bounds. -/
def hoja_chica : Sheet := ⟨[[some "Acme"]]⟩

/-- Counterexample to C4 as stated: on a 1-by-1 sheet the metadata read at
(5,1) is out of bounds and the function fails through the caught-exception
path with no record, instead of treating the cells as absent and producing
a record from the fallbacks. -/
theorem c4_limites_contraejemplo :
    procesar_evaluacion_empresa (fun _ => Except.ok hoja_chica)
      (fun _ => Except.ok hoja_chica) [] "datos.csv"
      = ProcResult.malformedInput "datos.csv" iloc_oob_msg := rfl

/-- Witness for the amended C4 at concrete inputs: a blank 8-by-2 sheet
succeeds, and a rating-column index past the width (column 5 of a 2-column
sheet) reads as a non-match. -/
theorem c4_limites_witness :
    (∃ d, extraer hoja_en_blanco "a.csv" = Except.ok d) ∧
    isX (hoja_en_blanco.colCell 0 5) = false :=
  ⟨(c4_limites hoja_en_blanco "a.csv").1.mpr (by decide),
   (c4_limites hoja_en_blanco "a.csv").2 0 5 (by decide)⟩

/-- Claim C5 (amended): the organisation is read from cell (5,1), the
period from (6,1) and the link from (7,1), 0-indexed; a blank organisation
cell falls back to the file-name chunk before the first `-` with the
`.xlsx` / `.csv` extension text removed, a blank period cell defaults to
the literal `"Desconocido"` (the Spanish literal the spec renders as
"Unknown"), and a blank link cell defaults to the literal `"N/A"`. -/
theorem c5_metadatos (df : Sheet) (name : String) (d : DbData)
    (h : extraer df name = Except.ok d) :
    d.organizacion_nombre = (match df.colCell 5 1 with
      | some s => s
      | none => fallback_org name) ∧
    d.periodo_informe = (df.colCell 6 1).getD "Desconocido" ∧
    d.enlace_original_documentacion = (df.colCell 7 1).getD "N/A" := by
  obtain ⟨-, rfl⟩ := (extraer_eq_ok_iff df name d).mp h
  exact ⟨rfl, rfl, rfl⟩

/-- Counterexample to C5 as stated: with a blank period cell the period
field is the literal `"Desconocido"`, not the claimed literal `"Unknown"`. -/
theorem c5_metadatos_contraejemplo :
    extraer hoja_en_blanco "AcmeCorp-2024.xlsx"
      = Except.ok (extraerOk hoja_en_blanco "AcmeCorp-2024.xlsx") ∧
    (extraerOk hoja_en_blanco "AcmeCorp-2024.xlsx").periodo_informe = "Desconocido" ∧
    ¬ (extraerOk hoja_en_blanco "AcmeCorp-2024.xlsx").periodo_informe = "Unknown" :=
  ⟨rfl, rfl, by decide⟩

/-- Witness for the amended C5: blank metadata cells and the file name
`AcmeCorp-2024.xlsx` give organisation `AcmeCorp` and link `N/A`. -/
theorem c5_metadatos_witness :
    (extraerOk hoja_en_blanco "AcmeCorp-2024.xlsx").organizacion_nombre = "AcmeCorp" ∧
    (extraerOk hoja_en_blanco "AcmeCorp-2024.xlsx").enlace_original_documentacion = "N/A" := by
  have h := c5_metadatos hoja_en_blanco "AcmeCorp-2024.xlsx"
    (extraerOk hoja_en_blanco "AcmeCorp-2024.xlsx") rfl
  exact ⟨h.1.trans (by decide), h.2.2.trans rfl⟩

end OAC

namespace OAC

/-- A reader that is never consulted successfully (used to instantiate the
reader parameters in witnesses). -/
def lector_nulo : List Nat → Except String Sheet := fun _ => Except.error "sin uso"

/-- A reader failing like pandas does on a malformed file. -/
def lector_err : List Nat → Except String Sheet := fun _ => Except.error "ParserError"

/-- Claim C6: a file name whose case-folded suffix is neither `.csv` nor
`.xlsx` takes the unsupported-format path, producing no record and
consulting no reader (the result does not depend on the readers). -/
theorem c6_formato_no_soportado (rc rx : List Nat → Except String Sheet)
    (b : List Nat) (name : String)
    (hcsv : pyEndsWith (pyLower name) ".csv" = false)
    (hx : pyEndsWith (pyLower name) ".xlsx" = false) :
    procesar_evaluacion_empresa rc rx b name = ProcResult.unsupportedFormat := by
  simp [procesar_evaluacion_empresa, hcsv, hx]

/-- Witness for C6: a `.txt` file is rejected as unsupported. -/
theorem c6_formato_no_soportado_witness :
    procesar_evaluacion_empresa lector_nulo lector_nulo [] "informe.txt"
      = ProcResult.unsupportedFormat :=
  c6_formato_no_soportado lector_nulo lector_nulo [] "informe.txt" (by decide) (by decide)

/-- Claim C7: a reading or extraction error on either dispatch path yields
the caught-exception result carrying the file name and the underlying
cause, and a record is only ever produced by a fully successful extraction
(so it always carries all 10 indicator entries: no partial record). -/
theorem c7_malformado_todo_o_nada (rc rx : List Nat → Except String Sheet)
    (b : List Nat) (n : String) :
    (pyEndsWith (pyLower n) ".csv" = true →
      (∀ e, rc b = Except.error e →
        procesar_evaluacion_empresa rc rx b n = ProcResult.malformedInput n e) ∧
      (∀ df e, rc b = Except.ok df → extraer df n = Except.error e →
        procesar_evaluacion_empresa rc rx b n = ProcResult.malformedInput n e)) ∧
    (pyEndsWith (pyLower n) ".csv" = false → pyEndsWith (pyLower n) ".xlsx" = true →
      (∀ e, rx b = Except.error e →
        procesar_evaluacion_empresa rc rx b n = ProcResult.malformedInput n e) ∧
      (∀ df e, rx b = Except.ok df → extraer df n = Except.error e →
        procesar_evaluacion_empresa rc rx b n = ProcResult.malformedInput n e)) ∧
    (∀ d, procesar_evaluacion_empresa rc rx b n = ProcResult.record d →
      (∃ df, extraer df n = Except.ok d) ∧ d.indicadores.length = 10) := by
  refine ⟨?_, ?_, ?_⟩
  · intro hcsv
    constructor
    · intro e he
      simp [procesar_evaluacion_empresa, hcsv, he]
    · intro df e hdf he
      simp [procesar_evaluacion_empresa, hcsv, hdf, he]
  · intro hcsv hx
    constructor
    · intro e he
      simp [procesar_evaluacion_empresa, hcsv, hx, he]
    · intro df e hdf he
      simp [procesar_evaluacion_empresa, hcsv, hx, hdf, he]
  · intro d hd
    obtain ⟨df, hdf⟩ := procesar_record_extraer rc rx b n d hd
    refine ⟨⟨df, hdf⟩, ?_⟩
    obtain ⟨-, rfl⟩ := (extraer_eq_ok_iff df n d).mp hdf
    rw [extraerOk_indicadores]
    simp [INDICADORES_A_EVALUAR]

/-- Witness for C7: a csv whose reader fails surfaces the cause and the
file name through the caught-exception result. -/
theorem c7_malformado_todo_o_nada_witness :
    procesar_evaluacion_empresa lector_err lector_nulo [] "informe.csv"
      = ProcResult.malformedInput "informe.csv" "ParserError" :=
  ((c7_malformado_todo_o_nada lector_err lector_nulo [] "informe.csv").1
    (by decide)).1 "ParserError" rfl

/-- Claim C9: the processing stage is a pure function of the file bytes and
the file name, so two calls on identical bytes and identical name yield
identical records (all metadata fields, all 10 indicator scores and the
total; the storage URL is attached only later, by
`guardar_evaluacion_en_db`, and is not part of this record). -/
theorem c9_idempotente (rc rx : List Nat → Except String Sheet)
    (b1 : List Nat) (n1 : String) (b2 : List Nat) (n2 : String)
    (hb : b1 = b2) (hn : n1 = n2) :
    procesar_evaluacion_empresa rc rx b1 n1 = procesar_evaluacion_empresa rc rx b2 n2 := by
  subst hb
  subst hn
  rfl

/-- Witness for C9 at concrete inputs. -/
theorem c9_idempotente_witness :
    procesar_evaluacion_empresa lector_nulo lector_nulo [] "a.csv"
      = procesar_evaluacion_empresa lector_nulo lector_nulo [] "a.csv" :=
  c9_idempotente lector_nulo lector_nulo [] "a.csv" [] "a.csv" rfl rfl

end OAC

namespace OAC

/-! ## Deletion (`eliminar_evaluacion_de_db`, lines 184-209)

The Supabase backend is external to the repository; it is modelled as a
pair of call functions threading an abstract world (the set of stored file
names and the set of table rows).  `eliminar_evaluacion_de_db` itself is
translated from the source: remove the file, report the outcome (an error
result becomes a `st.warning`, anything else a success message), then
unconditionally delete the row and report that outcome. -/

/-- Result of `supabase.storage.remove([...])` as the code inspects it:
`None` (falsy), a data payload, or an error carrying a message. -/
inductive StorageRemoveRes where
  | nulo
  | datos (files : List String)
  | err (message : String)
deriving DecidableEq

/-- Result of `supabase.table(...).delete().eq(...).execute()` as the code
inspects it: a `data` list (truthy when nonempty) and an error message. -/
structure DbDeleteRes where
  data : List String
  error_message : String
deriving DecidableEq

/-- A user-visible notice: `st.success`, `st.warning` or `st.error`. -/
inductive Msg where
  | success (s : String)
  | warning (s : String)
  | error (s : String)
deriving DecidableEq

/-- The backend state: stored file names and table row identifiers. -/
structure SupabaseWorld where
  storageFiles : List String
  tableRows : List String
deriving DecidableEq

/-- The notice emitted for the storage removal (lines 195-198): an error
result is a non-fatal warning, anything else (including a `None` result) a
success notice. -/
def msgStorage (file_name : String) : StorageRemoveRes → Msg
  | StorageRemoveRes.err m =>
    Msg.warning ("Error al eliminar archivo " ++ file_name
      ++ " de Storage (puede que ya no exista): " ++ m)
  | _ => Msg.success ("Archivo " ++ file_name ++ " eliminado de Storage.")

/-- The notice emitted for the row deletion (lines 204-207). -/
def msgDb (resp : DbDeleteRes) : Msg :=
  if resp.data.isEmpty then
    Msg.error ("Error al eliminar de la base de datos: " ++ resp.error_message)
  else Msg.success "Evaluación eliminada de la base de datos."

/-- `eliminar_evaluacion_de_db` (lines 184-209): remove the stored file,
report, then delete the row by identifier, report; returns the notices in
order and the final backend world. -/
def eliminar_evaluacion_de_db
    (storageRemove : String → SupabaseWorld → StorageRemoveRes × SupabaseWorld)
    (dbDelete : String → SupabaseWorld → DbDeleteRes × SupabaseWorld)
    (eval_id file_name_in_storage : String) (w : SupabaseWorld) :
    List Msg × SupabaseWorld :=
  let res_storage := storageRemove file_name_in_storage w
  let msg1 := msgStorage file_name_in_storage res_storage.1
  let response := dbDelete eval_id res_storage.2
  let msg2 := msgDb response.1
  ([msg1, msg2], response.2)

/-- Claim C8: the stored file is removed first and the row deletion is then
performed unconditionally on the post-removal world (so a storage failure,
including an already-absent file, never prevents the row deletion, and
neither operation rolls the other back); a storage failure surfaces as a
warning followed by the row-deletion notice, which depends only on the
database response. -/
theorem c8_eliminar_independiente
    (sr : String → SupabaseWorld → StorageRemoveRes × SupabaseWorld)
    (dd : String → SupabaseWorld → DbDeleteRes × SupabaseWorld)
    (eval_id name : String) (w : SupabaseWorld) :
    (eliminar_evaluacion_de_db sr dd eval_id name w).2 = (dd eval_id (sr name w).2).2 ∧
    (∀ m, (sr name w).1 = StorageRemoveRes.err m →
      (eliminar_evaluacion_de_db sr dd eval_id name w).1 =
        [Msg.warning ("Error al eliminar archivo " ++ name
          ++ " de Storage (puede que ya no exista): " ++ m),
         msgDb (dd eval_id (sr name w).2).1]) ∧
    (eliminar_evaluacion_de_db sr dd eval_id name w).1.getD 1 (Msg.warning "")
      = msgDb (dd eval_id (sr name w).2).1 := by
  refine ⟨rfl, ?_, rfl⟩
  intro m hm
  simp [eliminar_evaluacion_de_db, msgStorage, hm]

/-- A storage-removal semantics in which removing an absent file reports an
error result (the situation the code tolerates with a warning). -/
def sr_ausente : String → SupabaseWorld → StorageRemoveRes × SupabaseWorld :=
  fun name w =>
    if w.storageFiles.contains name then
      (StorageRemoveRes.datos [name], ⟨w.storageFiles.erase name, w.tableRows⟩)
    else (StorageRemoveRes.err "Object not found", w)

/-- A row-deletion semantics deleting by identifier and returning the
deleted row as data. -/
def dd_tabla : String → SupabaseWorld → DbDeleteRes × SupabaseWorld :=
  fun eid w =>
    if w.tableRows.contains eid then
      (⟨[eid], ""⟩, ⟨w.storageFiles, w.tableRows.erase eid⟩)
    else (⟨[], "row not found"⟩, w)

/-- Witness for C8: with the file already absent from storage and row `42`
present, deletion still removes the row, surfacing the storage failure as
a warning followed by the success notice for the row. -/
theorem c8_eliminar_independiente_witness :
    (eliminar_evaluacion_de_db sr_ausente dd_tabla "42" "informe.xlsx" ⟨[], ["42"]⟩).2
      = ⟨[], []⟩ ∧
    (eliminar_evaluacion_de_db sr_ausente dd_tabla "42" "informe.xlsx" ⟨[], ["42"]⟩).1
      = [Msg.warning ("Error al eliminar archivo informe.xlsx de Storage "
          ++ "(puede que ya no exista): Object not found"),
         Msg.success "Evaluación eliminada de la base de datos."] := by
  have h := c8_eliminar_independiente sr_ausente dd_tabla "42" "informe.xlsx" ⟨[], ["42"]⟩
  refine ⟨h.1.trans (by decide), ?_⟩
  have h2 := h.2.1 "Object not found" (by decide)
  rw [h2]
  decide

end OAC
